import Mathlib

/-!
# Verification of the NMDC metadata-translation transformation engine

A shallow embedding, in Lean 4, of the record→object transformation engine in
`metadata-translation/src/bin/lib/transform_nmdc_data.py`, together with proofs
settling a fixed list of claims about that code.

Python values flowing through the engine (record cells, attribute values,
constructed objects) are modelled by the inductive type `JVal` below.
Python `dict`s are modelled as ordered association lists (CPython 3.7+ dicts
preserve insertion order, which the engine relies on when zipping keys against
split column values).  Class instances produced via `$class_type` (which have a
`_as_dict` attribute, unlike plain dicts) are modelled by the separate
constructor `JVal.obj`.

The string primitives the engine uses (`split`, `strip`, `lower`, …) are
implemented here by structural recursion over the character list of a
`String`, so that every definition evaluates by `rfl`/`decide` on concrete
inputs; each is a direct model of the corresponding CPython operation.
-/

/-- A Python value as seen by the transformation engine: `None`/null, strings,
ints, floats (modelled as exact rationals), lists, plain dicts, and nmdc class
instances (`obj`, the values that carry `_as_dict`). -/
inductive JVal : Type where
  | null : JVal
  | str : String → JVal
  | int : Int → JVal
  | rat : ℚ → JVal
  | list : List JVal → JVal
  | dict : List (String × JVal) → JVal
  | obj : List (String × JVal) → JVal
  deriving Repr

/-- First-occurrence lookup in an association list: `d[k]`. -/
def alookup (key : String) : List (String × JVal) → Option JVal
  | [] => none
  | (k, v) :: rest => if k = key then some v else alookup key rest

/-- `key in d.keys()` for a Python dict modelled as an association list. -/
def hasKey (key : String) (fs : List (String × JVal)) : Bool :=
  (alookup key fs).isSome

mutual

/-- `is_value` (inner helper of `make_dict_from_nmdc_obj`, lines 258-292):
`False` for `None`; `False` for zero-length lists, dicts and strings; for a
dict, the value of `is_value` on its `id` entry when an `id` key exists, else
on its `has_raw_value` entry when that key exists, else `False`; `True` for
everything else (numbers and class instances reach the final `return True`). -/
def is_value : JVal → Bool
  | .null => false
  | .str s => decide (0 < s.length)
  | .int _ => true
  | .rat _ => true
  | .list xs => decide (0 < xs.length)
  | .dict fs =>
      if fs.length = 0 then false
      else
        match is_value_at "id" fs with
        | some b => b
        | none =>
          match is_value_at "has_raw_value" fs with
          | some b => b
          | none => false
  | .obj _ => true

/-- `is_value (d[key])` when `key` is a key of `d`, `none` otherwise. -/
def is_value_at (key : String) : List (String × JVal) → Option Bool
  | [] => none
  | (k, v) :: rest => if k = key then some (is_value v) else is_value_at key rest

end

/-- `pds.notnull` on an engine scalar: everything but `None` is non-null
(NaN-valued floats do not arise in the flows under study). -/
def notnull : JVal → Bool
  | .null => false
  | _ => true

/-!  ## String primitives (models of the CPython operations)  -/

/-- The whitespace characters Python's `str.strip()` removes. -/
def chIsSpace (c : Char) : Bool :=
  c = ' ' || c = '\t' || c = '\n' || c = '\r' || c = '\x0b' || c = '\x0c'

/-- Python `s.strip()`. -/
def pyStrip (s : String) : String :=
  String.mk (((s.data.dropWhile chIsSpace).reverse.dropWhile chIsSpace).reverse)

/-- The first list starts with the second. -/
def startsWithCh : List Char → List Char → Bool
  | _, [] => true
  | [], _ :: _ => false
  | c :: cs, d :: ds => c = d && startsWithCh cs ds

/-- Core of Python `s.split(sep)` for a nonempty `sep`: `skip` counts
separator characters still being consumed after a match; `acc` is the
current segment, reversed. -/
def chSplitOnAux (sep : List Char) : List Char → Nat → List Char → List (List Char)
  | [], _, acc => [acc.reverse]
  | _ :: cs, skip + 1, acc => chSplitOnAux sep cs skip acc
  | c :: cs, 0, acc =>
      if startsWithCh (c :: cs) sep then
        acc.reverse :: chSplitOnAux sep cs (sep.length - 1) []
      else chSplitOnAux sep cs 0 (c :: acc)

/-- Python `s.split(sep)` with a nonempty separator (left-to-right,
non-overlapping; keeps empty segments).  Python raises on an empty
separator; the engine never passes one, and the model returns `[s]`. -/
def pySplit (s sep : String) : List String :=
  match sep.data with
  | [] => [s]
  | _ :: _ => (chSplitOnAux sep.data s.data 0 []).map String.mk

/-- Break a character list at the first occurrence of `c`. -/
def chBreak (c : Char) : List Char → Option (List Char × List Char)
  | [] => none
  | d :: ds =>
      if d = c then some ([], ds)
      else (chBreak c ds).map (fun p => (d :: p.1, p.2))

/-- Python `s.split(" ", 1)`: the part before the first space and — when a
space exists — everything after it. -/
def pySplit1 (s : String) : List String :=
  match chBreak ' ' s.data with
  | none => [s]
  | some (a, b) => [String.mk a, String.mk b]

/-- ASCII lower-casing of one character (what `str.lower()` does on the
engine's ASCII data). -/
def chToLower (c : Char) : Char :=
  if 'A' ≤ c ∧ c ≤ 'Z' then Char.ofNat (c.toNat + 32) else c

/-- Python `s.lower()` on ASCII strings. -/
def pyLower (s : String) : String :=
  String.mk (s.data.map chToLower)

/-- Value of a digit list. -/
def digitsToNat (cs : List Char) : Nat :=
  cs.foldl (fun n c => 10 * n + (c.toNat - 48)) 0

/-- `cs` is nonempty and all decimal digits. -/
def allDigits (cs : List Char) : Bool :=
  decide (0 < cs.length) && cs.all Char.isDigit

/-- Python `str()` restricted to the scalars the engine passes through it.
Container and float `repr`s are not modelled precisely (no claim under study
exercises them); `None`, strings and ints are faithful. -/
def pyStr : JVal → String
  | .null => "None"
  | .str s => s
  | .int n => toString n
  | .rat q => toString q
  | .list _ => "[...]"
  | .dict _ => "{...}"
  | .obj _ => "<object>"

/-!  ## Value coercion (`coerce_value`, lines 90-107)  -/

/-- Mantissa of a decimal literal — `digits`, `digits.`, `.digits` or
`digits.digits` — as (integer-part digits, fraction digits, fraction
length). -/
def parseMantissa (m : String) : Option (Nat × Nat × Nat) :=
  match pySplit m "." with
  | [ip] => if allDigits ip.data then some (digitsToNat ip.data, 0, 0) else none
  | [ip, fp] =>
      if (ip.data.length ≠ 0 || fp.data.length ≠ 0)
          && ip.data.all Char.isDigit && fp.data.all Char.isDigit then
        some (digitsToNat ip.data, digitsToNat fp.data, fp.data.length)
      else none
  | _ => none

/-- Signed integer exponent part of a decimal literal. -/
def parseExp (e : String) : Option Int :=
  let sg : Int := if startsWithCh e.data ['-'] then -1 else 1
  let b := if startsWithCh e.data ['-'] || startsWithCh e.data ['+']
           then e.data.drop 1 else e.data
  if allDigits b then some (sg * (digitsToNat b : Int)) else none

/-- Assemble an exact rational from sign, mantissa digits and decimal
exponent: `sign * ⟨ip.fp⟩ * 10^ex`. -/
def sciToRat (sign : Int) (ipD fpD fpLen : Nat) (ex : Int) : ℚ :=
  let num : Int := sign * ((ipD * 10 ^ fpLen + fpD : Nat) : Int)
  match ex with
  | .ofNat e => mkRat (num * ((10 ^ e : Nat) : Int)) (10 ^ fpLen)
  | .negSucc e => mkRat num (10 ^ fpLen * 10 ^ (e + 1))

/-- Python `float(s)` / a `float` literal, modelled on finite decimal strings
(optional sign, decimal mantissa, optional exponent).  The parsed value is
kept as an exact rational, so `5.2` is 26/5 rather than a binary float; the
claims under study only compare parse success/failure and decimal values,
where the two agree.  `inf`/`nan` and underscore separators are outside the
model (the engine never feeds them). -/
def parseDecimal (s : String) : Option ℚ :=
  let sign : Int := if startsWithCh s.data ['-'] then -1 else 1
  let body := if startsWithCh s.data ['-'] || startsWithCh s.data ['+']
              then String.mk (s.data.drop 1) else s
  match pySplit (pyLower body) "e" with
  | [m] =>
      match parseMantissa m with
      | some (ipD, fpD, fpLen) => some (sciToRat sign ipD fpD fpLen 0)
      | none => none
  | [m, e] =>
      match parseMantissa m, parseExp e with
      | some (ipD, fpD, fpLen), some ex => some (sciToRat sign ipD fpD fpLen ex)
      | _, _ => none
  | _ => none

/-- Python `int()` truncation toward zero of a rational (the rational is
stored normalized, so this is sign times the Nat division of |num| by den). -/
def truncRat (q : ℚ) : Int :=
  if q.num < 0 then -((((-q.num).toNat / q.den : Nat) : Int))
  else (((q.num.toNat / q.den : Nat) : Int))

/-- `coerce_value` (lines 90-107).  `None` is returned unchanged; for dtype
`"str"` the value is formatted with an f-string; otherwise the source builds
and `eval`s `f"{dtype}({value})"`, which is modelled for the dtypes the
engine's specs use (`int`, `float`): the *text* of a string value is spliced
into the evaluated source, so a string `"5.2"` under dtype `"int"` becomes
the expression `int(5.2)` and truncates to `5`, while a non-numeric string
is an unbound name and raises (modelled as `Except.error`). -/
def coerce_value : JVal → String → Except String JVal
  | .null, _ => .ok .null
  | v, dtype =>
    if dtype = "str" then .ok (.str (pyStr v))
    else if dtype = "int" then
      match v with
      | .int n => .ok (.int n)
      | .rat q => .ok (.int (truncRat q))
      | .str s =>
          match parseDecimal (pyStrip s) with
          | some q => .ok (.int (truncRat q))
          | none => .error "NameError/ValueError in eval int(...)"
      | _ => .error "TypeError: int() argument"
    else if dtype = "float" then
      match v with
      | .int n => .ok (.rat (mkRat n 1))
      | .rat q => .ok (.rat q)
      | .str s =>
          match parseDecimal (pyStrip s) with
          | some q => .ok (.rat q)
          | none => .error "NameError/ValueError in eval float(...)"
      | _ => .error "TypeError: float() argument"
    else .error ("eval of unknown dtype " ++ dtype)

/-!  ## Field specifications and resolution (lines 110-204)  -/

/-- A `FieldSpec` as consumed by `get_record_attr` and
`get_field_and_dtype_from_attribute_field`: a plain string (optionally
`"fieldname, dtype"`), a `{"$field": …}` wrapper, or a `{"$const": …}`
wrapper.  (Dicts with neither key fall through to branches no claim under
study reaches and are not modelled.) -/
inductive AttrField : Type where
  | s : String → AttrField
  | fieldRef : AttrField → AttrField
  | constRef : AttrField → AttrField
  deriving Repr, DecidableEq

/-- `get_dtype_from_attribute_field` (lines 110-132): `$const` recurses, any
other dict yields `"str"`, a string yields the part after the first comma
(`split(",")[1].strip()`) when a comma is present, else `"str"`. -/
def get_dtype_from_attribute_field : AttrField → String
  | .constRef inner => get_dtype_from_attribute_field inner
  | .fieldRef _ => "str"
  | .s text =>
      if text.data.contains ',' then pyStrip ((pySplit text ",").getD 1 "")
      else "str"

/-- `get_field_and_dtype_from_attribute_field` (lines 135-165).  `$const` and
`$field` wrappers recurse; `"f, d"` splits on the comma (the Python tuple
unpacking `field, dtype = s.split(",")` raises unless the split has exactly
two parts, modelled as `Except.error`); a comma-free string gives
`(s.strip(), "str")`. -/
def get_field_and_dtype_from_attribute_field : AttrField → Except String (String × String)
  | .constRef inner => get_field_and_dtype_from_attribute_field inner
  | .fieldRef inner => get_field_and_dtype_from_attribute_field inner
  | .s text =>
      if text.data.contains ',' then
        match pySplit text "," with
        | [f, d] => .ok (pyStrip f, pyStrip d)
        | _ => .error "ValueError: too many values to unpack"
      else .ok (pyStrip text, "str")

/-- An input record (a Python `namedtuple` row): named fields with scalar
values.  Field names are distinct, so first-occurrence lookup is exact. -/
abbrev Record := List (String × JVal)

/-- `record_has_field` (lines 68-87): strips an optional `", dtype"` suffix
and tests membership of the field name among the record's fields.  (The
`pds.isnull(nmdc_record)` guard is unreachable for an actual namedtuple row
and is not modelled.) -/
def record_has_field (record : Record) (attribute_field : String) : Bool :=
  let field :=
    if attribute_field.data.contains ',' then pyStrip ((pySplit attribute_field ",").getD 0 "")
    else pyStrip attribute_field
  (alookup field record).isSome

/-- `af` is a `{"$const": …}` wrapper, the branch `get_record_attr`
short-circuits on. -/
def is_const_spec : AttrField → Bool
  | .constRef _ => true
  | _ => false

/-- `get_record_attr` (lines 168-204).  A top-level `$const` coerces the
constant's text and never consults the record.  Otherwise the field name and
dtype are extracted; if the record has the field its value is read, else the
field *name* itself is used when `return_field_if_none` is set and `None`
otherwise; finally a non-null value is coerced to the dtype and a null one is
returned as `None`. -/
def get_record_attr (record : Record) (attribute_field : AttrField)
    (return_field_if_none : Bool := true) : Except String JVal :=
  match attribute_field with
  | .constRef inner =>
      match get_field_and_dtype_from_attribute_field inner with
      | .error e => .error e
      | .ok (field, dtype) => coerce_value (.str field) dtype
  | af =>
      match get_field_and_dtype_from_attribute_field af with
      | .error e => .error e
      | .ok (field, dtype) =>
          let val : JVal :=
            if record_has_field record field then (alookup field record).getD .null
            else if return_field_if_none then .str field else .null
          match val with
          | .null => .ok .null
          | v => coerce_value v dtype

/-!  ## Pruning / normalization (`make_dict_from_nmdc_obj`, lines 247-333)  -/

mutual

/-- `jsonasobj.as_dict`: recursive conversion of a class-instance graph to
plain nested dicts (class instances are the `JVal.obj` constructor). -/
def as_dict : JVal → JVal
  | .obj fs => .dict (as_dict_fields fs)
  | .dict fs => .dict (as_dict_fields fs)
  | .list xs => .list (as_dict_list xs)
  | .null => .null
  | .str s => .str s
  | .int n => .int n
  | .rat q => .rat q

def as_dict_fields : List (String × JVal) → List (String × JVal)
  | [] => []
  | (k, v) :: rest => (k, as_dict v) :: as_dict_fields rest

def as_dict_list : List JVal → List JVal
  | [] => []
  | v :: rest => as_dict v :: as_dict_list rest

end

/-- `make_dict` (inner helper, lines 294-324).  `None` is passed through; a
value without `_as_dict` (anything that is not a class instance) is returned
unchanged; a class instance is converted with `jsonasobj.as_dict`, then each
dict-valued attribute keeps only its `is_value` entries and each list-valued
attribute only its `is_value` elements, and finally only attributes whose
(filtered) value passes `is_value` are kept. -/
def make_dict : JVal → JVal
  | .null => .null
  | .obj fs =>
      let temp := (as_dict_fields fs).map (fun p =>
        match p.2 with
        | .dict d => (p.1, JVal.dict (d.filter (fun q => is_value q.2)))
        | .list xs => (p.1, JVal.list (xs.filter is_value))
        | v => (p.1, v))
      .dict (temp.filter (fun p => is_value p.2))
  | .str s => .str s
  | .int n => .int n
  | .rat q => .rat q
  | .list xs => .list xs
  | .dict fs => .dict fs

/-- `make_dict_from_nmdc_obj` (lines 326-333): a list keeps its `is_value`
elements, each converted by `make_dict`; anything else goes straight to
`make_dict`. -/
def make_dict_from_nmdc_obj : JVal → JVal
  | .list xs => .list ((xs.filter is_value).map make_dict)
  | v => make_dict v

/-!  ## Nested-object list construction (`make_object_from_list_item_dict`,
lines 588-662)

The name `zip_longest` at line 652 is unbound: the module imports no
`itertools` (nor the name from anywhere else), and no staged source defines
it, so every call of `make_object_from_list_item_dict` that reaches line 652
raises `NameError`.  The embedding models this faithfully: the steps that run
before the zip — the `pop` mutations of lines 605-615 and the
`record_values` loop of lines 620-638 — are carried out, and evaluating
`zip_longest(*record_values)` itself is the `NameError` exit.  Because the
pops mutate the caller's (shared) spec item, the function returns the final
state of the item alongside the `Except` result, so the mutation is visible
even on the exception path.  -/

/-- A value of an object-spec item entry: a plain field spec, or a
`{"$field": …, "$split_val": …}` dict carrying a per-field delimiter. -/
inductive ItemVal : Type where
  | af : AttrField → ItemVal
  | fieldSplit : AttrField → String → ItemVal
  deriving Repr, DecidableEq

/-- An object-spec element (a Python dict, insertion-ordered). -/
abbrev Item := List (String × ItemVal)

/-- The keys of an item, in order (`item.keys()`). -/
def itemKeys (item : Item) : List String := item.map Prod.fst

/-- `dict.pop(key)`: the value at `key` together with the dict without that
entry, or `none` (a `KeyError`) when the key is absent. -/
def itemPop (key : String) : Item → Option (ItemVal × Item)
  | [] => none
  | (k, v) :: rest =>
      if k = key then some (v, rest)
      else match itemPop key rest with
        | some (w, rest') => some (w, (k, v) :: rest')
        | none => none

/-- `get_record_attr` applied to an item-entry value (line 623): a plain spec
is passed through; a `{"$field": …, "$split_val": …}` dict has no `$const`
key, so `get_field_and_dtype_from_attribute_field` descends into its
`$field`. -/
def getRecordAttrItem (record : Record) : ItemVal → Except String JVal
  | .af a => get_record_attr record a false
  | .fieldSplit a _ => get_record_attr record (.fieldRef a) false

/-- `get_dtype_from_attribute_field` applied to an item-entry value
(line 626): a `$field`/`$split_val` dict has no `$const` key, so its dtype is
`"str"`. -/
def getDtypeItem : ItemVal → String
  | .af a => get_dtype_from_attribute_field a
  | .fieldSplit _ _ => "str"

/-- `coerce_value(piece.strip(), dtype)` over a list of split pieces; the
first coercion error propagates (uncaught in the source). -/
def coerceList (dtype : String) : List String → Except String (List JVal)
  | [] => .ok []
  | piece :: rest =>
      match coerce_value (.str (pyStrip piece)) dtype with
      | .error e => .error e
      | .ok v =>
          match coerceList dtype rest with
          | .error e => .error e
          | .ok vs => .ok (v :: vs)

/-- `[coerce_value(v.strip(), dtype) for v in str(val).split(mysplit)]`
(line 635). -/
def splitCoerce (val : JVal) (delim dtype : String) : Except String (List JVal) :=
  coerceList dtype (pySplit (pyStr val) delim)

/-- The `record_values` loop (lines 620-638): each entry's value is resolved
with `return_field_if_none=False`; a `None` result contributes `[None]`, and
any other result is stringified, split on the per-field delimiter when the
entry carries one and on `split_val` otherwise, and coerced piecewise. -/
def buildRecordValues (record : Record) (split_val : String) :
    List ItemVal → Except String (List (List JVal))
  | [] => .ok []
  | fv :: rest =>
      match getRecordAttrItem record fv with
      | .error e => .error e
      | .ok val =>
          let rvE : Except String (List JVal) :=
            match val with
            | .null => .ok [JVal.null]
            | v =>
                splitCoerce v
                  (match fv with
                   | .fieldSplit _ sv => sv
                   | _ => split_val)
                  (getDtypeItem fv)
          match rvE with
          | .error e => .error e
          | .ok rv =>
              match buildRecordValues record split_val rest with
              | .error e => .error e
              | .ok rest' => .ok (rv :: rest')

/-- Lines 617-652 after the pops: the `record_values` loop runs (its
coercion errors propagate, uncaught in the source), and a run that completes
it reaches `for rv in zip_longest(*record_values)` at line 652, where the
unbound name `zip_longest` raises `NameError` — nothing past that line ever
executes, so the popped `$class_type` value (whose class lookup would only
matter at line 657) is unused. -/
def make_object_from_item_core (record : Record) (split_val : String)
    (item2 : Item) : Except String (List JVal) × Item :=
  match buildRecordValues record split_val (item2.map Prod.snd) with
  | .error e => (.error e, item2)
  | .ok _ => (.error "NameError: name 'zip_longest' is not defined", item2)

/-- Lines 610-615: a `$class_type` entry is popped out of the (shared) spec
item — a mutation that persists even though the call later raises — and the
run continues into the `record_values` loop. -/
def make_object_from_item_after_split (record : Record) (split_val : String)
    (item1 : Item) : Except String (List JVal) × Item :=
  if (itemKeys item1).contains "$class_type" then
    match itemPop "$class_type" item1 with
    | none => (.error "KeyError: $class_type", item1)
    | some (_, rest) => make_object_from_item_core record split_val rest
  else make_object_from_item_core record split_val item1

/-- `make_object_from_list_item_dict` (lines 588-662), with the dict
mutations and the line-652 `NameError` made explicit: the second component of
the result is the state of the spec item when the call exits (normally or
exceptionally), which the caller's shared spec retains for later rows.
Faithful to the source's line 605 typo: the guard tests for a `"$spit_val"`
key but pops `"$split_val"`, so a spec-wide `"$split_val"` entry is neither
honoured nor removed.  (A `$split_val` entry holding anything but a plain
string is outside the model — Python would fail on it only later, inside
`str.split`.) -/
def make_object_from_list_item_dict (record : Record) (item : Item) :
    Except String (List JVal) × Item :=
  if (itemKeys item).contains "$spit_val" then
    match itemPop "$split_val" item with
    | none => (.error "KeyError: $split_val", item)
    | some (.af (.s sv), rest) => make_object_from_item_after_split record sv rest
    | some (_, rest) => (.error "TypeError: unmodelled non-string $split_val", rest)
  else make_object_from_item_after_split record "," item

/-!  ## Post-transform hooks and the driver tail  -/

/-- Python dict/attribute assignment `d[k] = v` / `setattr(o, k, v)`: an
existing key keeps its position with the new value; a new key is appended. -/
def setField (key : String) (v : JVal) (fs : List (String × JVal)) :
    List (String × JVal) :=
  if hasKey key fs then fs.map (fun p => if p.1 = key then (key, v) else p)
  else fs ++ [(key, v)]

/-- `has_raw_value` (lines 32-65) applied to an already-fetched attribute
value: `False` for `None`; for a dict, whether a `has_raw_value` key with a
non-null value is present; for a class instance the same on its attribute
dict; any other value reaches `vars(val)`, which raises `TypeError`. -/
def hrv_check : JVal → Except String Bool
  | .null => .ok false
  | .dict fs =>
      .ok (match alookup "has_raw_value" fs with
            | some v => notnull v
            | none => false)
  | .obj fs =>
      .ok (match alookup "has_raw_value" fs with
            | some v => notnull v
            | none => false)
  | _ => .error "TypeError: vars() argument must have __dict__"

/-- The update `make_quantity_value` performs on one attribute value's fields
(lines 892-918): the raw value's text is split once on the first space; the
head, stripped, is fed to `float()` and on success stored under
`has_numeric_value` (a failure is swallowed by the bare `try`/`except`); a
tail, stripped, is stored under `has_unit`. -/
def quantity_update (fs : List (String × JVal)) : List (String × JVal) :=
  let raw := pyStr ((alookup "has_raw_value" fs).getD .null)
  let value_list := pySplit1 raw
  let fs1 :=
    match parseDecimal (pyStrip (value_list.headD "")) with
    | some q => setField "has_numeric_value" (.rat q) fs
    | none => fs
  if 1 < value_list.length then
    setField "has_unit" (.str (pyStrip (value_list.getD 1 ""))) fs1
  else fs1

/-- `make_quantity_value` for one object and one attribute (lines 889-918):
the attribute is read with `getattr` (an `AttributeError` when the object
lacks it); when it carries a non-null raw value, the value object — dict or
class instance alike — is updated in place by `quantity_update`. -/
def make_quantity_value_obj (attr : String) : JVal → Except String JVal
  | .obj fs =>
      match alookup attr fs with
      | none => .error "AttributeError: getattr"
      | some val =>
          match hrv_check val with
          | .error e => .error e
          | .ok false => .ok (.obj fs)
          | .ok true =>
              let val' : JVal :=
                match val with
                | .dict d => .dict (quantity_update d)
                | .obj d => .obj (quantity_update d)
                | v => v
              .ok (.obj (setField attr val' fs))
  | _ => .error "AttributeError: getattr on non-object"

/-- Apply a per-object hook step to every object, propagating the first
uncaught exception. -/
def mapExcept (f : JVal → Except String JVal) : List JVal → Except String (List JVal)
  | [] => .ok []
  | v :: rest =>
      match f v with
      | .error e => .error e
      | .ok w =>
          match mapExcept f rest with
          | .error e => .error e
          | .ok ws => .ok (w :: ws)

/-- The hooks' nested `for attribute: for obj:` loops (objects are mutated in
place, so the object list after one attribute feeds the next). -/
def hookLoop (perObj : String → JVal → Except String JVal)
    (nmdc_objs : List JVal) : List String → Except String (List JVal)
  | [] => .ok nmdc_objs
  | a :: rest =>
      match mapExcept (perObj a) nmdc_objs with
      | .error e => .error e
      | .ok objs' => hookLoop perObj objs' rest

/-- `make_quantity_value` (lines 874-922). -/
def make_quantity_value (nmdc_objs : List JVal) (tx_attributes : List String) :
    Except String (List JVal) :=
  hookLoop make_quantity_value_obj nmdc_objs tx_attributes

/-- The English month abbreviations `strptime`'s `%b` matches,
case-insensitively. -/
def monthNum (m : String) : Option Nat :=
  match pyLower m with
  | "jan" => some 1 | "feb" => some 2 | "mar" => some 3 | "apr" => some 4
  | "may" => some 5 | "jun" => some 6 | "jul" => some 7 | "aug" => some 8
  | "sep" => some 9 | "oct" => some 10 | "nov" => some 11 | "dec" => some 12
  | _ => none

/-- Gregorian leap-year test. -/
def isLeap (y : Nat) : Bool :=
  y % 4 = 0 && (y % 100 ≠ 0 || y % 400 = 0)

/-- Days in a month. -/
def daysInMonth (mo y : Nat) : Nat :=
  if mo = 2 then (if isLeap y then 29 else 28)
  else if mo = 4 || mo = 6 || mo = 9 || mo = 11 then 30
  else 31

/-- `datetime.strptime(s, "%d-%b-%y")`: one-or-two-digit day, dash,
abbreviated month name (case-insensitive), dash, one-or-two-digit year
(`00`-`68` map to `20xx`, `69`-`99` to `19xx`); the day must exist in the
resulting month.  `none` models the `ValueError` the hook catches. -/
def strptime_d_b_y (s : String) : Option (Nat × Nat × Nat) :=
  match pySplit s "-" with
  | [d, m, y] =>
      if allDigits d.data && d.data.length ≤ 2 && allDigits y.data && y.data.length ≤ 2 then
        match monthNum m with
        | some mo =>
            let dn := digitsToNat d.data
            let yy := digitsToNat y.data
            let yr := if yy ≤ 68 then 2000 + yy else 1900 + yy
            if 1 ≤ dn ∧ dn ≤ daysInMonth mo yr then some (yr, mo, dn) else none
        | none => none
      else none
  | _ => none

/-- Zero-padded two-digit rendering for `strftime`'s `%m`/`%d`. -/
def pad2 (n : Nat) : String :=
  if n < 10 then "0" ++ toString n else toString n

/-- `strftime("%Y-%m-%d")` on a parsed (year, month, day). -/
def fmtISO : Nat × Nat × Nat → String
  | (y, mo, d) => toString y ++ "-" ++ pad2 mo ++ "-" ++ pad2 d

/-- `make_iso_8601_date_value` for one object and one attribute
(lines 944-960): objects without the attribute are skipped (`hasattr`; a
non-instance value has no such attribute and is skipped the same way); the
attribute's text before the first space is parsed with
`strptime(…, "%d-%b-%y")` and on success the attribute is rewritten to the
`strftime("%Y-%m-%d")` rendering; on failure the handler logs
`getattr(obj, "id")` — an `AttributeError` when the object lacks an `id` —
and leaves the attribute unchanged. -/
def make_iso_8601_obj (attr : String) : JVal → Except String JVal
  | .obj fs =>
      if hasKey attr fs then
        let date_str := (pySplit1 (pyStr ((alookup attr fs).getD .null))).headD ""
        if date_str ≠ "None" then
          match strptime_d_b_y date_str with
          | some ymd => .ok (.obj (setField attr (.str (fmtISO ymd)) fs))
          | none => if hasKey "id" fs then .ok (.obj fs) else .error "AttributeError: id"
        else .ok (.obj fs)
      else .ok (.obj fs)
  | v => .ok v

/-- `make_iso_8601_date_value` (lines 925-962). -/
def make_iso_8601_date_value (nmdc_objs : List JVal) (tx_attributes : List String) :
    Except String (List JVal) :=
  hookLoop make_iso_8601_obj nmdc_objs tx_attributes

/-- A row of an SSSOM crosswalk table (the three columns the engine reads). -/
structure SSSOMRow : Type where
  subject_label : String
  object_label : String
  predicate_id : String
  deriving Repr, DecidableEq

/-- Insertion into the subject→object map with Python-dict overwrite
semantics. -/
def setPairStr (key v : String) : List (String × String) → List (String × String)
  | [] => [(key, v)]
  | (k, w) :: rest =>
      if k = key then (key, v) :: rest else (k, w) :: setPairStr key v rest

/-- Lookup in the subject→object map. -/
def lookupStr (key : String) : List (String × String) → Option String
  | [] => none
  | (k, w) :: rest => if k = key then some w else lookupStr key rest

/-- `make_attribute_map` (lines 462-489).  With a nonempty `sssom_map_file`
the file's rows are subset to `predicate_id == 'skos:exactMatch'` (the
`.query(…)` call); with the default empty path the packaged
`gold-to-mixs.sssom.tsv` rows are read with **no** predicate filter.  The
dict comprehension maps each remaining row's subject label to its object
label, later rows overwriting earlier ones. -/
def make_attribute_map (sssom_map_file : String)
    (file_rows default_rows : List SSSOMRow) : List (String × String) :=
  let mapping_df :=
    if 0 < sssom_map_file.length then
      file_rows.filter (fun r => r.predicate_id = "skos:exactMatch")
    else default_rows
  mapping_df.foldl (fun m r => setPairStr r.subject_label r.object_label m) []

/-- The driver's junk-value pass (`dataframe_to_dict`, lines 845-849) on one
object's attribute dict: every attribute whose value is a dict with neither
an `id` nor a `has_raw_value` key is replaced by `None`. -/
def nullify_fields (fs : List (String × JVal)) : List (String × JVal) :=
  fs.map (fun p =>
    match p.2 with
    | .dict d =>
        if hasKey "id" d || hasKey "has_raw_value" d then p
        else (p.1, JVal.null)
    | _ => p)

/-- The junk-value pass on one built object (`obj.__dict__` iteration). -/
def nullify_obj : JVal → JVal
  | .obj fs => .obj (nullify_fields fs)
  | v => v

/-- Run the declared post-transform hooks in order, each hook's output
feeding the next. -/
def runHooks : List (List JVal → Except String (List JVal)) → List JVal →
    Except String (List JVal)
  | [], objs => .ok objs
  | tx :: rest, objs =>
      match tx objs with
      | .error e => .error e
      | .ok objs' => runHooks rest objs'

/-- The tail of `dataframe_to_dict` (lines 842-863): after the per-row
objects are built, the junk-value pass runs over every object, then the
declared post-transform hooks in order, then each object is converted to a
pruned dict. -/
def dataframe_to_dict_tail (nmdc_objs : List JVal)
    (post_transforms : List (List JVal → Except String (List JVal))) :
    Except String (List JVal) :=
  match runHooks post_transforms (nmdc_objs.map nullify_obj) with
  | .error e => .error e
  | .ok objs => .ok (objs.map make_dict_from_nmdc_obj)

/-- `v` is a list. -/
def isListV : JVal → Bool
  | .list _ => true
  | _ => false

/-- `v` is a class instance (carries `_as_dict`). -/
def isObjV : JVal → Bool
  | .obj _ => true
  | _ => false

/-- The presence test for nested mappings as the claim under study words it:
the mapping carries an `id` key with a non-null value, **or** a
`has_raw_value` key with a non-null value.  Stated from the claim's words, to
be compared against the source's `is_value`. -/
def claimed_present (fs : List (String × JVal)) : Bool :=
  (match alookup "id" fs with
   | some v => notnull v
   | none => false)
  || (match alookup "has_raw_value" fs with
      | some v => notnull v
      | none => false)

/-!  ## Helper lemmas  -/

/-- `is_value_at` is `is_value` after first-occurrence lookup. -/
theorem is_value_at_eq (key : String) (fs : List (String × JVal)) :
    is_value_at key fs = (alookup key fs).map is_value := by
  induction fs with
  | nil => rfl
  | cons p rest ih =>
      obtain ⟨k, v⟩ := p
      simp only [is_value_at, alookup]
      split <;> simp [ih]

/-- Overwriting one key of a dict leaves lookups of other keys unchanged. -/
theorem alookup_map_set (k k' : String) (v : JVal) (fs : List (String × JVal))
    (hne : k ≠ k') :
    alookup k (fs.map (fun p => if p.1 = k' then (k', v) else p)) = alookup k fs := by
  induction fs with
  | nil => rfl
  | cons p rest ih =>
      obtain ⟨a, b⟩ := p
      simp only [List.map_cons]
      by_cases ha : a = k'
      · rw [if_pos ha]
        subst ha
        simp only [alookup]
        rw [if_neg (fun h => hne h.symm), if_neg (fun h => hne h.symm)]
        exact ih
      · rw [if_neg ha]
        simp only [alookup]
        by_cases hak : a = k
        · rw [if_pos hak, if_pos hak]
        · rw [if_neg hak, if_neg hak]; exact ih

/-- Appending a fresh key leaves lookups of other keys unchanged. -/
theorem alookup_append_single (k k' : String) (v : JVal) (fs : List (String × JVal))
    (hne : k ≠ k') : alookup k (fs ++ [(k', v)]) = alookup k fs := by
  induction fs with
  | nil =>
      simp only [List.nil_append, alookup]
      rw [if_neg (fun h => hne h.symm)]
  | cons p rest ih =>
      obtain ⟨a, b⟩ := p
      simp only [List.cons_append, alookup]
      by_cases hak : a = k
      · rw [if_pos hak, if_pos hak]
      · rw [if_neg hak, if_neg hak]; exact ih

/-- `setField` on one key leaves lookups of other keys unchanged. -/
theorem alookup_setField_ne (k k' : String) (v : JVal) (fs : List (String × JVal))
    (hne : k ≠ k') : alookup k (setField k' v fs) = alookup k fs := by
  unfold setField
  by_cases h : hasKey k' fs
  · rw [if_pos h]; exact alookup_map_set k k' v fs hne
  · rw [if_neg h]; exact alookup_append_single k k' v fs hne

/-!  ## Claim C2  -/

/-- C2, counterexample: a nested mapping whose `id` key is null but whose
`has_raw_value` is a non-empty string is *discarded* by the code's `is_value`
(the `id` branch shadows `has_raw_value`), while the claim's
"id non-null OR raw value non-null" test calls it present. -/
theorem C2_id_shadowing_counterexample :
    is_value (.dict [("id", JVal.null), ("has_raw_value", JVal.str "x")]) = false
    ∧ claimed_present [("id", JVal.null), ("has_raw_value", JVal.str "x")] = true :=
  ⟨rfl, rfl⟩

/-- C2, amended: pruning checks the keys *sequentially* — when an `id` key
exists, presence is decided solely by the recursive value test on the `id`
value (`has_raw_value` is never consulted); only when no `id` key exists does
an existing `has_raw_value` entry decide; with neither key the mapping is
discarded.  The value test is `is_value` itself (non-null and non-empty), not
mere non-nullness. -/
theorem C2_presence_sequential (fs : List (String × JVal)) :
    is_value (.dict fs)
      = (match alookup "id" fs with
         | some v => is_value v
         | none =>
           match alookup "has_raw_value" fs with
           | some v => is_value v
           | none => false) := by
  cases fs with
  | nil => rfl
  | cons p rest =>
      simp only [is_value, is_value_at_eq, List.length_cons]
      rw [if_neg (by simp)]
      cases alookup "id" (p :: rest) with
      | some v => rfl
      | none =>
          cases alookup "has_raw_value" (p :: rest) with
          | some v => rfl
          | none => rfl

/-!  ## Claim C5  -/

/-- C5: at the failing input the spec-wide `"$split_val"` declaration is
ignored — the line-605 guard tests for the misspelled key `"$spit_val"` — so
the `record_values` loop splits the column on the default `","` (leaving
`"a|b"` whole) and resolves the `"$split_val"` entry itself as an absent
record field, contributing `[None]` (first conjunct); the call then raises
`NameError` at line 652 with the item intact, producing nothing (second
conjunct) — never the claimed `[{"id": "a"}, {"id": "b"}]`. -/
theorem C5_split_val_ignored :
    buildRecordValues [("gold_id", .str "a|b")] ","
        [.af (.s "|"), .af (.s "gold_id")]
      = .ok [[JVal.null], [JVal.str "a|b"]]
    ∧ make_object_from_list_item_dict [("gold_id", .str "a|b")]
        [("$split_val", .af (.s "|")), ("id", .af (.s "gold_id"))]
      = (.error "NameError: name 'zip_longest' is not defined",
         [("$split_val", .af (.s "|")), ("id", .af (.s "gold_id"))]) :=
  ⟨rfl, rfl⟩

/-!  ## Claim C8  -/

/-- C8: the `skos:exactMatch` subset is applied only on the explicit-path
branch of `make_attribute_map`; the default packaged table is loaded with no
predicate filter, so a non-exact-match row in it does enter the rename map
(first conjunct), while the same row supplied through an explicit file path
is excluded (second conjunct). -/
theorem C8_default_table_unfiltered :
    make_attribute_map "" [] [⟨"depth", "depth2", "skos:closeMatch"⟩]
      = [("depth", "depth2")]
    ∧ make_attribute_map "some/path.tsv" [⟨"depth", "depth2", "skos:closeMatch"⟩] []
      = [] :=
  ⟨rfl, rfl⟩

/-!  ## Claim C9  -/

/-- C9, counterexample: the first row to process a spec item carrying
`$class_type` pops that key out of the shared spec dict — the item state at
exit differs from the input spec — even though the call itself then raises
`NameError` at line 652; per-row construction therefore mutates the shared
mapping specification, and later rows see the stripped spec. -/
theorem C9_spec_mutation_counterexample :
    make_object_from_list_item_dict [("gold_id", .str "gold:001")]
        [("$class_type", .af (.s "Study")), ("id", .af (.s "gold_id"))]
      = (.error "NameError: name 'zip_longest' is not defined",
         [("id", .af (.s "gold_id"))])
    ∧ ([("id", ItemVal.af (.s "gold_id"))] : Item)
        ≠ [("$class_type", ItemVal.af (.s "Study")), ("id", ItemVal.af (.s "gold_id"))] :=
  ⟨rfl, by simp⟩

/-- C9, amended: processing a row leaves the mapping specification unchanged
— the claim's frame condition — provided no nested object-spec item carries
a `"$class_type"` (or misspelled `"$spit_val"`) key: the spec item comes
back exactly as it went in, whichever exit the call takes.  An item carrying
`"$class_type"` is instead mutated by the first row that processes it (the
key is popped before the line-652 `NameError`), so later rows receive a
different spec. -/
theorem C9_rows_independent_amended (record : Record) (item : Item)
    (h1 : (itemKeys item).contains "$spit_val" = false)
    (h2 : (itemKeys item).contains "$class_type" = false) :
    (make_object_from_list_item_dict record item).2 = item := by
  simp only [make_object_from_list_item_dict]
  rw [h1]
  simp only [Bool.false_eq_true, if_false]
  simp only [make_object_from_item_after_split]
  rw [h2]
  simp only [Bool.false_eq_true, if_false]
  simp only [make_object_from_item_core]
  cases hbv : buildRecordValues record "," (item.map Prod.snd) with
  | error e => rfl
  | ok rvs => rfl

/-- Witness for `C9_rows_independent_amended` at a concrete spec item without
a `$class_type` key. -/
theorem C9_rows_independent_witness :
    (make_object_from_list_item_dict [("gold_id", JVal.str "g")]
        [("id", ItemVal.af (.s "gold_id"))]).2
      = [("id", ItemVal.af (.s "gold_id"))] :=
  C9_rows_independent_amended [("gold_id", JVal.str "g")]
    [("id", .af (.s "gold_id"))] rfl rfl

/-!  ## Claim C4  -/

/-- C4, counterexample: normalization is **not** idempotent on lists of class
instances.  A class instance whose dict form has no `id`/`has_raw_value`
passes `is_value` as an object (final `return True`), so one pass keeps it
and converts it to a dict — which the second pass's `is_value` filter then
discards. -/
theorem C4_idempotence_counterexample :
    make_dict_from_nmdc_obj (make_dict_from_nmdc_obj (JVal.list [.obj [("name", .str "foo")]]))
      ≠ make_dict_from_nmdc_obj (JVal.list [.obj [("name", .str "foo")]]) := by
  intro h
  have h1 : make_dict_from_nmdc_obj (JVal.list [.obj [("name", .str "foo")]])
      = JVal.list [.dict [("name", .str "foo")]] := rfl
  rw [h1] at h
  have h2 : make_dict_from_nmdc_obj (JVal.list [.dict [("name", .str "foo")]])
      = JVal.list [] := rfl
  rw [h2] at h
  simp at h

/-- C4, amended: `make_dict_from_nmdc_obj` is idempotent on every non-list
value (a class instance normalizes to a dict, which is a fixed point), and on
every list whose elements are not class instances; only lists containing a
class instance whose pruned dict fails `is_value` break idempotence (as the
counterexample shows). -/
theorem C4_idempotent_amended :
    (∀ v : JVal, isListV v = false →
       make_dict_from_nmdc_obj (make_dict_from_nmdc_obj v) = make_dict_from_nmdc_obj v)
    ∧ ∀ xs : List JVal, (∀ x ∈ xs, isObjV x = false) →
       make_dict_from_nmdc_obj (make_dict_from_nmdc_obj (.list xs))
         = make_dict_from_nmdc_obj (.list xs) := by
  constructor
  · intro v hv
    cases v with
    | list xs => simp [isListV] at hv
    | null => rfl
    | str s => rfl
    | int n => rfl
    | rat q => rfl
    | dict fs => rfl
    | obj fs => rfl
  · intro xs hxs
    have hmd : ∀ x ∈ xs.filter is_value, make_dict x = x := by
      intro x hx
      have hmem := List.mem_of_mem_filter hx
      have hno := hxs x hmem
      cases x <;> first | rfl | simp [isObjV] at hno
    have hmap : (xs.filter is_value).map make_dict = xs.filter is_value := by
      rw [List.map_congr_left hmd]; exact List.map_id' _
    simp only [make_dict_from_nmdc_obj]
    rw [hmap, List.filter_filter]
    have hff : (xs.filter fun a => is_value a && is_value a) = xs.filter is_value := by
      simp [Bool.and_self]
    rw [hff, hmap]

/-- Witness for `C4_idempotent_amended` at a dict and at a list of dicts. -/
theorem C4_idempotent_witness :
    make_dict_from_nmdc_obj (make_dict_from_nmdc_obj (JVal.dict [("id", .str "a")]))
      = make_dict_from_nmdc_obj (JVal.dict [("id", .str "a")])
    ∧ make_dict_from_nmdc_obj (make_dict_from_nmdc_obj (JVal.list [.dict [("id", .str "a")]]))
      = make_dict_from_nmdc_obj (JVal.list [.dict [("id", .str "a")]]) :=
  ⟨C4_idempotent_amended.1 (JVal.dict [("id", .str "a")]) rfl,
   C4_idempotent_amended.2 [JVal.dict [("id", .str "a")]] (by simp [isObjV])⟩

/-!  ## Claim C10  -/

/-- C10: the driver's junk-value pass.  (1) after the pass, every
dict-valued attribute of a built object has an `id` or a `has_raw_value`
key; (2) an attribute whose value is a dict with neither key — regardless of
what other entries it holds — is replaced by `None`; (3) in the driver tail
this pass runs on every built object before the post-transform hooks, whose
output is then pruned. -/
theorem C10_nullify_invariant :
    (∀ (fs : List (String × JVal)) (k : String) (v : JVal),
        (k, v) ∈ nullify_fields fs →
        ∀ d, v = JVal.dict d → hasKey "id" d = true ∨ hasKey "has_raw_value" d = true)
    ∧ (∀ (fs : List (String × JVal)) (k : String) (d : List (String × JVal)),
        (k, JVal.dict d) ∈ fs → hasKey "id" d = false → hasKey "has_raw_value" d = false →
        (k, JVal.null) ∈ nullify_fields fs)
    ∧ ∀ (objs : List JVal) (post : List (List JVal → Except String (List JVal))),
        dataframe_to_dict_tail objs post
          = match runHooks post (objs.map nullify_obj) with
            | .error e => .error e
            | .ok os => .ok (os.map make_dict_from_nmdc_obj) := by
  refine ⟨?_, ?_, fun objs post => rfl⟩
  · intro fs k v hmem d hv
    subst hv
    unfold nullify_fields at hmem
    obtain ⟨p0, hp0, heq⟩ := List.mem_map.mp hmem
    obtain ⟨k0, v0⟩ := p0
    cases v0 with
    | dict d0 =>
        by_cases hc : (hasKey "id" d0 || hasKey "has_raw_value" d0) = true
        · simp only [hc, if_true] at heq
          simp only [Prod.mk.injEq, JVal.dict.injEq] at heq
          obtain ⟨-, hd⟩ := heq
          subst hd
          rcases (Bool.or_eq_true _ _).mp hc with h | h
          · exact Or.inl h
          · exact Or.inr h
        · simp only [Bool.not_eq_true] at hc
          simp only [hc, Bool.false_eq_true, if_false] at heq
          simp at heq
    | null => simp at heq
    | str s => simp at heq
    | int n => simp at heq
    | rat q => simp at heq
    | list l => simp at heq
    | obj o => simp at heq
  · intro fs k d hmem hid hhrv
    have hstep : ((fun p => match p.2 with
        | JVal.dict d0 =>
            if hasKey "id" d0 || hasKey "has_raw_value" d0 then p
            else (p.1, JVal.null)
        | _ => p) ((k, JVal.dict d) : String × JVal)) = (k, JVal.null) := by
      simp [hid, hhrv]
    unfold nullify_fields
    rw [← hstep]
    exact List.mem_map_of_mem _ hmem

/-- Witness for `C10_nullify_invariant`: a dict-valued attribute with a
non-null entry but neither an `id` nor a `has_raw_value` key is nulled. -/
theorem C10_nullify_witness :
    (("junk", JVal.null) ∈
        nullify_fields [("junk", JVal.dict [("x", JVal.int 1)])])
    ∧ hasKey "id" [("x", JVal.int 1)] = false :=
  ⟨C10_nullify_invariant.2.1 [("junk", JVal.dict [("x", JVal.int 1)])] "junk"
     [("x", JVal.int 1)] (by simp) rfl rfl, rfl⟩

/-!  ## Claim C6  -/

/-- C6, counterexample: the date hook rewrites
`"30-OCT-14 12.00.00 AM"` to `"2014-10-30"` — the calendar date 30 October
2014 — not to the `"2014-10-14"` the claim (following the function's own
docstring example) asserts. -/
theorem C6_date_counterexample :
    make_iso_8601_date_value
        [.obj [("id", .str "gold:1"), ("add_date", .str "30-OCT-14 12.00.00 AM")]]
        ["add_date"]
      = .ok [.obj [("id", .str "gold:1"), ("add_date", .str "2014-10-30")]]
    ∧ JVal.str "2014-10-30" ≠ JVal.str "2014-10-14" :=
  ⟨rfl, by simp⟩

/-- C6, amended: the hook rewrites `"30-OCT-14 12.00.00 AM"` to
`"2014-10-30"`; and for every attribute whose text-before-the-first-space
fails the `%d-%b-%y` parse, on an object carrying an `id` attribute (which
the failure log reads) the attribute is left unmodified and no exception
escapes. -/
theorem C6_date_amended :
    make_iso_8601_date_value
        [.obj [("id", .str "gold:1"), ("add_date", .str "30-OCT-14 12.00.00 AM")]]
        ["add_date"]
      = .ok [.obj [("id", .str "gold:1"), ("add_date", .str "2014-10-30")]]
    ∧ ∀ (fs : List (String × JVal)) (attr : String),
        hasKey "id" fs = true →
        strptime_d_b_y ((pySplit1 (pyStr ((alookup attr fs).getD .null))).headD "") = none →
        make_iso_8601_obj attr (.obj fs) = .ok (.obj fs) := by
  refine ⟨rfl, fun fs attr hid hparse => ?_⟩
  simp only [make_iso_8601_obj]
  by_cases hattr : hasKey attr fs = true
  · rw [if_pos hattr]
    by_cases hnone : ((pySplit1 (pyStr ((alookup attr fs).getD .null))).headD "") = "None"
    · rw [if_neg (by simpa using hnone)]
    · rw [if_pos (by simpa using hnone)]
      rw [hparse, if_pos hid]
  · rw [if_neg hattr]

/-- Witness for `C6_date_amended` at a concrete unparsable date. -/
theorem C6_date_witness :
    make_iso_8601_obj "add_date"
        (.obj [("id", JVal.str "x"), ("add_date", JVal.str "junk string")])
      = .ok (.obj [("id", JVal.str "x"), ("add_date", JVal.str "junk string")]) :=
  C6_date_amended.2 [("id", JVal.str "x"), ("add_date", JVal.str "junk string")]
    "add_date" rfl rfl

/-!  ## Claim C7  -/

/-- C7: the quantity hook on raw value `"5.2 milligram"` sets
`has_numeric_value` to the number 5.2 (= 26/5) and `has_unit` to
`"milligram"`; and for every raw value whose head fails `float()` parsing,
the `has_numeric_value` lookup is unchanged (left unset when it was unset)
and the hook still returns normally (the bare `try`/`except` swallows the
failure). -/
theorem C7_quantity_value :
    make_quantity_value
        [.obj [("weight", .dict [("has_raw_value", .str "5.2 milligram")])]] ["weight"]
      = .ok [.obj [("weight", .dict [("has_raw_value", .str "5.2 milligram"),
                                     ("has_numeric_value", .rat (mkRat 26 5)),
                                     ("has_unit", .str "milligram")])]]
    ∧ ∀ (fs dfs : List (String × JVal)) (attr raw_s : String),
        alookup attr fs = some (JVal.dict dfs) →
        alookup "has_raw_value" dfs = some (JVal.str raw_s) →
        parseDecimal (pyStrip ((pySplit1 raw_s).headD "")) = none →
        make_quantity_value_obj attr (.obj fs)
          = .ok (.obj (setField attr (.dict (quantity_update dfs)) fs))
        ∧ alookup "has_numeric_value" (quantity_update dfs)
          = alookup "has_numeric_value" dfs := by
  refine ⟨rfl, fun fs dfs attr raw_s hattr hraw hparse => ⟨?_, ?_⟩⟩
  · simp only [make_quantity_value_obj]
    rw [hattr]
    simp only [hrv_check]
    rw [hraw]
    rfl
  · simp only [quantity_update]
    rw [hraw]
    simp only [Option.getD_some]
    have hps : pyStr (JVal.str raw_s) = raw_s := rfl
    rw [hps, hparse]
    by_cases hlen : 1 < (pySplit1 raw_s).length
    · rw [if_pos hlen]
      exact alookup_setField_ne _ _ _ _ (by simp)
    · rw [if_neg hlen]

/-- Witness for `C7_quantity_value` at the raw value `"abc"`. -/
theorem C7_quantity_witness :
    make_quantity_value_obj "weight"
        (.obj [("weight", JVal.dict [("has_raw_value", JVal.str "abc")])])
      = .ok (.obj (setField "weight"
               (.dict (quantity_update [("has_raw_value", JVal.str "abc")]))
               [("weight", JVal.dict [("has_raw_value", JVal.str "abc")])]))
    ∧ alookup "has_numeric_value" (quantity_update [("has_raw_value", JVal.str "abc")])
      = alookup "has_numeric_value" [("has_raw_value", JVal.str "abc")] :=
  C7_quantity_value.2 [("weight", JVal.dict [("has_raw_value", JVal.str "abc")])]
    [("has_raw_value", JVal.str "abc")] "weight" "abc" rfl rfl rfl

/-!  ## Claim C3  -/

/-- For a non-`$const` field spec, `get_record_attr` is field lookup followed
by the null/absence policy and coercion (the defining equation, with the
`$const` short-circuit discharged). -/
theorem get_record_attr_eq (record : Record) (af : AttrField) (field dtype : String) (b : Bool)
    (hconst : is_const_spec af = false)
    (hfd : get_field_and_dtype_from_attribute_field af = .ok (field, dtype)) :
    get_record_attr record af b =
      match (if record_has_field record field then (alookup field record).getD JVal.null
             else if b then JVal.str field else JVal.null) with
      | JVal.null => .ok JVal.null
      | v => coerce_value v dtype := by
  cases af with
  | constRef inner => simp [is_const_spec] at hconst
  | s text =>
      simp only [get_record_attr]
      rw [hfd]
  | fieldRef inner =>
      simp only [get_record_attr]
      rw [hfd]

/-- C3: for every field-referencing spec form (plain string, `"name, dtype"`,
`$field` wrapper — every form but the record-independent `$const`), with the
extracted field name in canonical form (no surrounding whitespace, no comma):
presence is exactly schema membership of the field name — independent of the
value being null (first conjunct); a present-but-null field resolves to
`None` under either flag (second conjunct); an absent field with the
default-to-field flag set resolves to `coerce(fieldname, dtype)` (third
conjunct). -/
theorem C3_null_vs_absent (record : Record) (af : AttrField) (field dtype : String) (b : Bool)
    (hconst : is_const_spec af = false)
    (hfd : get_field_and_dtype_from_attribute_field af = .ok (field, dtype))
    (htrim : pyStrip field = field)
    (hcomma : field.data.contains ',' = false) :
    record_has_field record field = (alookup field record).isSome
    ∧ (alookup field record = some JVal.null → get_record_attr record af b = .ok JVal.null)
    ∧ (alookup field record = none →
        get_record_attr record af true = coerce_value (.str field) dtype) := by
  have hrhf : record_has_field record field = (alookup field record).isSome := by
    unfold record_has_field
    rw [hcomma]
    simp only [Bool.false_eq_true, if_false, htrim]
  refine ⟨hrhf, fun hnull => ?_, fun hnone => ?_⟩
  · rw [get_record_attr_eq record af field dtype b hconst hfd, hrhf, hnull]
    rfl
  · rw [get_record_attr_eq record af field dtype true hconst hfd, hrhf, hnone]
    rfl

/-- Witness for `C3_null_vs_absent`: a null-valued `depth` field resolves to
`None`, and an absent `depth` field with the flag set resolves to the coerced
field name. -/
theorem C3_null_vs_absent_witness :
    get_record_attr [("depth", JVal.null)] (.s "depth") false = .ok JVal.null
    ∧ get_record_attr [] (.s "depth") true = coerce_value (.str "depth") "str" :=
  ⟨(C3_null_vs_absent [("depth", JVal.null)] (.s "depth") "depth" "str" false
      rfl rfl rfl rfl).2.1 rfl,
   (C3_null_vs_absent [] (.s "depth") "depth" "str" true
      rfl rfl rfl rfl).2.2 rfl⟩

/-!  ## Claim C1  -/

/-- C1: the nested-object list form never produces the claimed output in the
staged code.  At the claim's worked example the `record_values` loop
completes and the call reaches line 652, where the unbound name
`zip_longest` (never imported) raises `NameError`, so nothing is returned
(first conjunct).  The part of the claim's pipeline that does execute before
the raise behaves as described: the two referenced columns resolve and split
to `[["a","b"], ["x","y"]]` (second conjunct), and a referenced field absent
from the record contributes the sequence `[None]` (third conjunct) — but the
positional zip of these sequences, and with it the claimed objects and the
null-padding of unequal lengths, is exactly the computation the `NameError`
cuts off. -/
theorem C1_zip_longest_name_error :
    make_object_from_list_item_dict
        [("fa", .str "a,b"), ("fb", .str "x,y")]
        [("id", .af (.s "fa")), ("name", .af (.s "fb"))]
      = (.error "NameError: name 'zip_longest' is not defined",
         [("id", .af (.s "fa")), ("name", .af (.s "fb"))])
    ∧ buildRecordValues [("fa", .str "a,b"), ("fb", .str "x,y")] ","
        [.af (.s "fa"), .af (.s "fb")]
      = .ok [[JVal.str "a", JVal.str "b"], [JVal.str "x", JVal.str "y"]]
    ∧ buildRecordValues [("fa", .str "a,b"), ("fb", .str "x,y")] ","
        [.af (.s "missing")]
      = .ok [[JVal.null]] :=
  ⟨rfl, rfl, rfl⟩
